import Mathlib

/-!
Shallow embedding of the task-management HTTP backend (Express + Mongoose +
Joi) found in `server.js`, `src/routes/taskRoutes.js`, `src/models/task.js`
and the Joi-based `validateTask` middleware, together with theorems settling
the spec claims about it.

Modelling conventions:
* A MongoDB ObjectId arriving over HTTP is a `String`; validity is the
  24-hex-character criterion used by `mongoose.Types.ObjectId.isValid`.
* The document store is a `List Task`; `_id` is the `tid` field.
* JavaScript exceptions (thrown `ReferenceError`s, Mongoose `CastError`s and
  validation errors) are `Except String` values; each route handler's
  `catch (error) { res.status(500) ... }` turns them into a 500 response.
* The authenticated caller (`req.user.userId`, attached by the auth
  middleware) is passed to every handler as a `UserId` argument.
* Request bodies are records of optional string fields plus the list of
  unknown keys, matching what the Joi schema can observe.
-/

namespace TaskApi

/-- The caller identity attached to the request by the auth middleware. -/
abbrev UserId := Nat

/-- A stored `Task` document (`src/models/task.js`): title (required,
trimmed), optional description, status enum with default `Pending`, owning
user, optional image path, and the `createdAt` timestamp added by
`timestamps: true` (the `updatedAt` twin plays no role in any claim and is
not modelled). `tid` is the Mongo `_id` rendered as a hex string. -/
structure Task where
  tid : String
  title : String
  description : Option String
  status : String
  user : UserId
  image : Option String
  createdAt : Nat
deriving DecidableEq

/-- The status enum of `taskSchema` (`src/models/task.js` lines 14-18). -/
def statusValues : List String := ["Pending", "In Progress", "Completed"]

/-- Hexadecimal character test used by ObjectId validity. -/
def isHexChar (c : Char) : Bool :=
  c.isDigit || (('a' ≤ c) && (c ≤ 'f')) || (('A' ≤ c) && (c ≤ 'F'))

/-- `mongoose.Types.ObjectId.isValid` on a string: 24 hex characters. -/
def isValidObjectId (s : String) : Bool :=
  s.length == 24 && s.toList.all isHexChar

/-- Whitespace test for the trimming applied by the Mongoose schema. -/
def isSpaceChar (c : Char) : Bool :=
  c = ' ' || c = '\t' || c = '\n' || c = '\r'

/-- JavaScript `String.prototype.trim` as used by the schema's `trim: true`
(kernel-computable model over the character list). -/
def strTrim (s : String) : String :=
  ⟨((s.toList.dropWhile isSpaceChar).reverse.dropWhile isSpaceChar).reverse⟩

/-- A JSON request body as seen by the Joi schema of the `validateTask`
middleware: the three declared keys (string-valued when present) and the
names of any keys outside the schema. -/
structure Body where
  title : Option String
  description : Option String
  status : Option String
  extraKeys : List String
deriving DecidableEq

/-- Joi check of the `title` key: `Joi.string().required()` with the custom
`any.required` message. An empty string fails `string.empty`. -/
def titleError (b : Body) : Option String :=
  match b.title with
  | none => some "Title is required"
  | some t => if t = "" then some "\"title\" is not allowed to be empty" else none

/-- Joi check of the optional `description` key: `Joi.string().optional()`. -/
def descriptionError (b : Body) : Option String :=
  match b.description with
  | none => none
  | some d => if d = "" then some "\"description\" is not allowed to be empty" else none

/-- Joi check of the optional `status` key:
`Joi.string().valid('Pending', 'In Progress', 'Completed').optional()`. -/
def statusError (b : Body) : Option String :=
  match b.status with
  | none => none
  | some s =>
    if s = "" then some "\"status\" is not allowed to be empty"
    else if statusValues.contains s then none
    else some "\"status\" must be one of [Pending, In Progress, Completed]"

/-- Joi check of unknown keys (the schema allows no others). -/
def unknownKeyError (b : Body) : Option String :=
  match b.extraKeys with
  | [] => none
  | k :: _ => some ("\"" ++ k ++ "\" is not allowed")

/-- The `validateTask` middleware: `schema.validate(req.body)` with Joi's
default `abortEarly`, reporting the first error in schema-key order
(`title`, `description`, `status`, then unknown keys); the route answers
400 with `error.details[0].message` when this is `some`. -/
def validateTask (b : Body) : Option String :=
  match titleError b with
  | some e => some e
  | none =>
    match descriptionError b with
    | some e => some e
    | none =>
      match statusError b with
      | some e => some e
      | none => unknownKeyError b

/-- Pagination metadata of the list response (`taskRoutes.js` lines 122-126). -/
structure Pagination where
  currentPage : Nat
  totalPages : Nat
  totalItems : Nat
deriving DecidableEq

/-- A JSON response of one of the task routes, together with its HTTP
status code (`Resp.statusCode`). -/
inductive Resp where
  | created (t : Task)
  | okTask (t : Task)
  | okMsg (m : String)
  | okUpload (m : String) (t : Task)
  | okList (tasks : List Task) (p : Pagination)
  | err (code : Nat) (msg : String)
deriving DecidableEq

/-- HTTP status code of a response. -/
def Resp.statusCode : Resp → Nat
  | .created _ => 201
  | .err c _ => c
  | _ => 200

/-- `Task.findById(id)`: a malformed id makes Mongoose throw a `CastError`;
otherwise the document with that `_id`, if any. -/
def findById (db : List Task) (id : String) : Except String (Option Task) :=
  if isValidObjectId id then Except.ok (db.find? (fun t => t.tid == id))
  else Except.error ("Cast to ObjectId failed for value " ++ id)

/-- Mongoose document validation run by `save()` and by
`runValidators: true`: non-empty trimmed title and status in the enum. -/
def schemaViolation (t : Task) : Option String :=
  if strTrim t.title = "" then some "Task validation failed: title: Title is required"
  else if statusValues.contains t.status then none
  else some "Task validation failed: status: invalid enum value"

/-- `POST /api/tasks` (`taskRoutes.js` lines 43-52) behind `validateTask`:
reads only `title` and `description` from the body, owner is the caller,
and `save()` applies the schema (trimming and the `Pending` default).
`newId` is the ObjectId Mongo assigns, `now` the creation timestamp. -/
def createTask (db : List Task) (caller : UserId) (b : Body)
    (newId : String) (now : Nat) : Resp × List Task :=
  match validateTask b with
  | some e => (.err 400 e, db)
  | none =>
    let t : Task :=
      { tid := newId
        title := strTrim (b.title.getD "")
        description := b.description.map strTrim
        status := "Pending"
        user := caller
        image := none
        createdAt := now }
    match schemaViolation t with
    | some e => (.err 500 e, db)
    | none => (.created t, db ++ [t])

/-- Query parameters of `GET /api/tasks`; every field is optional exactly as
in `const { search, page = 1, limit = 10, sort = 'createdAt', status } =
req.query` (numeric parameters modelled as the numbers they parse to). -/
structure ListQuery where
  search : Option String
  page : Option Nat
  limit : Option Nat
  sort : Option String
  status : Option String
deriving DecidableEq

/-- Sort key for `.sort(sortSpec)` on the task collection: the `createdAt`
timestamp ascending or (with a leading minus) descending; any other sort
spec is modelled as order-preserving (constant key under a stable sort).
No claim depends on the order, only on the membership of the sorted list. -/
def sortVal (sortSpec : String) (t : Task) : Int :=
  if sortSpec = "createdAt" then (t.createdAt : Int)
  else if sortSpec = "-createdAt" then -(t.createdAt : Int)
  else 0

/-- `GET /api/tasks` (`taskRoutes.js` lines 97-131). When `search` is truthy
the handler evaluates `filter.$or = ...` (line 102) before the
`const filter` of line 107 is initialized: the temporal dead zone makes this
a `ReferenceError`, which the catch block turns into a 500. Otherwise the
filter is owner plus optional status, and the response carries the page
slice and `Math.ceil(total / limit)` (as integer arithmetic, meaningful for
`limit > 0`). -/
def listTasks (db : List Task) (caller : UserId) (q : ListQuery) : Resp :=
  if (q.search.getD "") ≠ "" then
    .err 500 "Cannot access filter before initialization"
  else
    let page := q.page.getD 1
    let lim := q.limit.getD 10
    let sortSpec := q.sort.getD "createdAt"
    let pred : Task → Bool := fun t =>
      t.user == caller &&
        (match q.status with
         | some s => if s ≠ "" then t.status == s else true
         | none => true)
    let matching := db.filter pred
    let sorted := matching.insertionSort (fun a b => sortVal sortSpec a ≤ sortVal sortSpec b)
    let pageTasks := (sorted.drop ((page - 1) * lim)).take lim
    let total := matching.length
    .okList pageTasks ⟨page, (total + lim - 1) / lim, total⟩

/-- The free identifier `mongoose` on line 161 of `taskRoutes.js`: the module
never requires mongoose, so evaluating `mongoose.Types.ObjectId.isValid(id)`
throws a `ReferenceError` before anything else in the handler body runs. -/
def routesMongooseIsValid (id : String) : Except String Bool :=
  Except.error "mongoose is not defined"

/-- The `try` body of `GET /api/tasks/:id` (`taskRoutes.js` lines 158-172),
statement by statement: the ObjectId check (which throws, see
`routesMongooseIsValid`), then `findById`, then 404 or 200. -/
def getTaskByIdBody (db : List Task) (id : String) : Except String Resp :=
  match routesMongooseIsValid id with
  | .error e => .error e
  | .ok valid =>
    if valid = false then .ok (.err 400 "Invalid task ID format")
    else
      match findById db id with
      | .error e => .error e
      | .ok none => .ok (.err 404 "Task not found")
      | .ok (some t) => .ok (.okTask t)

/-- `GET /api/tasks/:id` with its catch block. The handler never reads the
caller identity. -/
def getTaskById (db : List Task) (caller : UserId) (id : String) : Resp :=
  match getTaskByIdBody db id with
  | .ok r => r
  | .error m => .err 500 m

/-- `Task.findByIdAndUpdate(id, { title, description, status },
{ new: true, runValidators: true })`: undefined body fields are dropped from
the update, provided ones are written (strings trimmed by the schema) and
validated. Returns the updated document and store, `none` when no document
has this id. -/
def findByIdAndUpdate (db : List Task) (id : String) (b : Body) :
    Except String (Option (Task × List Task)) :=
  if isValidObjectId id then
    match db.find? (fun t => t.tid == id) with
    | none => Except.ok none
    | some t =>
      let t2 : Task :=
        { t with
          title := (b.title.map strTrim).getD t.title
          description := (b.description.map strTrim).orElse (fun _ => t.description)
          status := b.status.getD t.status }
      match schemaViolation t2 with
      | some e => Except.error e
      | none => Except.ok (some (t2, db.map (fun x => if x.tid == id then t2 else x)))
  else Except.error ("Cast to ObjectId failed for value " ++ id)

/-- `PUT /api/tasks/:id` (`taskRoutes.js` lines 210-226) behind
`validateTask`. The handler never reads the caller identity (no ownership
check). -/
def updateTask (db : List Task) (caller : UserId) (id : String) (b : Body) :
    Resp × List Task :=
  match validateTask b with
  | some e => (.err 400 e, db)
  | none =>
    match findByIdAndUpdate db id b with
    | .error m => (.err 500 m, db)
    | .ok none => (.err 404 "Task not found", db)
    | .ok (some (t2, db2)) => (.okTask t2, db2)

/-- `DELETE /api/tasks/:id` (`taskRoutes.js` lines 251-262) via
`Task.findByIdAndDelete`. The handler never reads the caller identity. -/
def deleteTask (db : List Task) (caller : UserId) (id : String) :
    Resp × List Task :=
  if isValidObjectId id then
    match db.find? (fun t => t.tid == id) with
    | none => (.err 404 "Task not found", db)
    | some _ => (.okMsg "Task deleted successfully", db.eraseP (fun t => t.tid == id))
  else (.err 500 ("Cast to ObjectId failed for value " ++ id), db)

/-- `POST /api/tasks/:id/upload` (`taskRoutes.js` lines 299-319). The
`file` argument is `req.file` as left by the upload middleware — modelled
from the spec: the middleware stores at most one `image` file on disk and
exposes its generated filename. On success the handler sets
`task.image = `/uploads/` + filename` and `save()`s; it never reads the
caller identity. -/
def uploadImage (db : List Task) (caller : UserId) (id : String)
    (file : Option String) : Resp × List Task :=
  match file with
  | none => (.err 400 "No file uploaded", db)
  | some fname =>
    if isValidObjectId id then
      match db.find? (fun t => t.tid == id) with
      | none => (.err 404 "Task not found", db)
      | some t =>
        let t2 : Task := { t with image := some ("/uploads/" ++ fname) }
        match schemaViolation t2 with
        | some e => (.err 500 e, db)
        | none =>
          (.okUpload "Image uploaded successfully" t2,
            db.map (fun x => if x.tid == id then t2 else x))
    else (.err 500 ("Cast to ObjectId failed for value " ++ id), db)

/-! ### Concrete fixtures used by the witnesses -/

/-- A well-formed ObjectId. -/
def tidA : String := "0123456789abcdef01234567"

/-- Another well-formed ObjectId. -/
def tidB : String := "0123456789abcdef01234568"

/-- A third well-formed ObjectId. -/
def tidC : String := "0123456789abcdef01234569"

/-- A task owned by user 0. -/
def taskA : Task := ⟨tidA, "Buy milk", some "two liters", "Pending", 0, none, 1⟩

/-- A second task owned by user 0. -/
def taskB : Task := ⟨tidB, "Write report", none, "In Progress", 0, none, 2⟩

/-- A third task owned by user 0. -/
def taskC : Task := ⟨tidC, "Call bank", none, "Completed", 0, none, 3⟩

/-- A store with three tasks, all owned by user 0. -/
def dbThree : List Task := [taskA, taskB, taskC]

/-- A body that supplies a valid status alongside title and description. -/
def bodyWithStatus : Body := ⟨some "Write report", some "for Monday", some "Completed", []⟩

/-- The task the create handler builds from `bodyWithStatus` for caller 3. -/
def taskNew : Task := ⟨tidB, "Write report", some "for Monday", "Pending", 3, none, 9⟩

/-! ### Claim theorems -/

/-- C1: for every authenticated caller, `GET /api/tasks` returns only tasks
whose owning user equals the caller's identity — a task created by user `a`
never appears in user `b2`'s list results. -/
theorem listTasks_ownership (db : List Task) (a b2 : UserId) (q : ListQuery)
    (ts : List Task) (p : Pagination) (t : Task)
    (hab : a ≠ b2) (hres : listTasks db b2 q = .okList ts p) (ht : t.user = a) :
    t ∉ ts := by
  intro hmem
  unfold listTasks at hres
  by_cases hs : (q.search.getD "") ≠ ""
  · rw [if_pos hs] at hres
    exact Resp.noConfusion hres
  · rw [if_neg hs] at hres
    injection hres with hts hp
    subst hts
    have h1 := List.mem_of_mem_take hmem
    have h2 := List.mem_of_mem_drop h1
    have h3 := (List.mem_insertionSort _).mp h2
    have h4 := (List.mem_filter.mp h3).2
    simp only [Bool.and_eq_true, beq_iff_eq] at h4
    exact hab (ht ▸ h4.1)

/-- C1 witness: with the store holding only user 0's task, user 1's list
response is an empty page, and user 0's task is not in it. -/
theorem listTasks_ownership_witness :
    taskA ∉ ([] : List Task) :=
  listTasks_ownership [taskA] 0 1 ⟨none, none, none, none, none⟩ [] ⟨1, 0, 0⟩ taskA
    (by decide) (by decide) (by decide)

/-- C2: get-by-id, update, delete and upload never read the caller identity,
so any two authenticated callers get the same result; but the claim's
"`GET /api/tasks/:id` by another user returns 200 with the owner's task"
fails — `taskRoutes.js` never requires `mongoose`, so line 161 throws a
`ReferenceError` and every get-by-id request is answered 500. -/
theorem idRoutes_ignore_caller (db : List Task) (id : String) (c1 c2 : UserId)
    (b : Body) (f : Option String) :
    getTaskById db c1 id = getTaskById db c2 id ∧
    updateTask db c1 id b = updateTask db c2 id b ∧
    deleteTask db c1 id = deleteTask db c2 id ∧
    uploadImage db c1 id f = uploadImage db c2 id f ∧
    getTaskById db c1 id = .err 500 "mongoose is not defined" :=
  ⟨rfl, rfl, rfl, rfl, rfl⟩

/-- C3: the claim says a malformed id yields 400 and a well-formed missing
id yields 404; in the code both yield 500, because the handler's first
statement evaluates the free identifier `mongoose` (never required in
`taskRoutes.js`) and throws before the id is ever inspected. -/
theorem getTaskById_always_500 (db : List Task) (caller : UserId) :
    isValidObjectId "zzz" = false ∧
    isValidObjectId tidA = true ∧
    getTaskById db caller "zzz" = .err 500 "mongoose is not defined" ∧
    getTaskById db caller tidA = .err 500 "mongoose is not defined" :=
  ⟨by decide, by decide, rfl, rfl⟩

/-- C4: the claim says every authenticated list request, including one with
a `search` parameter, is answered 200; in the code a non-empty `search`
makes line 102 assign `filter.$or` while `const filter` (line 107) is still
in its temporal dead zone, so the handler throws and answers 500. -/
theorem listTasks_search_throws (db : List Task) (caller : UserId)
    (q : ListQuery) (s : String) (hs : q.search = some s) (hne : s ≠ "") :
    listTasks db caller q = .err 500 "Cannot access filter before initialization" := by
  unfold listTasks
  rw [hs]
  simp [hne]

/-- C4 witness: a concrete search request is answered 500. -/
theorem listTasks_search_throws_witness :
    listTasks [] 0 ⟨some "milk", none, none, none, none⟩ =
      .err 500 "Cannot access filter before initialization" :=
  listTasks_search_throws [] 0 ⟨some "milk", none, none, none, none⟩ "milk" rfl (by decide)

/-- The integer expression `(t + l - 1) / l` computed by the list handler is
exactly the ceiling of the rational `t / l`, for a positive limit. -/
theorem ceil_formula (t l : Nat) (hl : 0 < l) :
    (t + l - 1) / l = Nat.ceil ((t : ℚ) / (l : ℚ)) := by
  have hlq : (0 : ℚ) < (l : ℚ) := by exact_mod_cast hl
  apply le_antisymm
  · have h1 : t ≤ Nat.ceil ((t : ℚ) / (l : ℚ)) * l := by
      have h2 : (t : ℚ) / (l : ℚ) ≤ (Nat.ceil ((t : ℚ) / (l : ℚ)) : ℚ) := Nat.le_ceil _
      rw [div_le_iff₀ hlq] at h2
      exact_mod_cast h2
    rw [← Nat.lt_succ_iff, Nat.div_lt_iff_lt_mul hl]
    have h3 : (Nat.ceil ((t : ℚ) / (l : ℚ)) + 1) * l = Nat.ceil ((t : ℚ) / (l : ℚ)) * l + l := by
      ring
    rw [h3]
    generalize Nat.ceil ((t : ℚ) / (l : ℚ)) * l = m at h1 ⊢
    omega
  · rw [Nat.ceil_le, div_le_iff₀ hlq]
    have h5 : t ≤ (t + l - 1) / l * l := by
      have hdm := Nat.div_add_mod (t + l - 1) l
      have hmod : (t + l - 1) % l < l := Nat.mod_lt _ hl
      rw [Nat.mul_comm]
      generalize l * ((t + l - 1) / l) = m at hdm ⊢
      generalize (t + l - 1) % l = r at hdm hmod
      omega
    exact_mod_cast h5

/-- C5: in every successful list response, `totalPages` is the ceiling of
`totalItems / limit` and `currentPage` echoes the requested page (default
1). The limit (default 10) must be positive for the ceiling to be
meaningful. -/
theorem listTasks_pagination_correct (db : List Task) (caller : UserId)
    (q : ListQuery) (ts : List Task) (p : Pagination)
    (hl : 0 < q.limit.getD 10)
    (hres : listTasks db caller q = .okList ts p) :
    p.currentPage = q.page.getD 1 ∧
    p.totalPages = Nat.ceil ((p.totalItems : ℚ) / ((q.limit.getD 10 : Nat) : ℚ)) := by
  unfold listTasks at hres
  by_cases hs : (q.search.getD "") ≠ ""
  · rw [if_pos hs] at hres
    exact Resp.noConfusion hres
  · rw [if_neg hs] at hres
    injection hres with hts hp
    subst hp
    exact ⟨rfl, ceil_formula _ _ hl⟩

/-- C5 witness: three stored tasks, limit 2, page defaulted: the response
reports page 1 of ⌈3/2⌉ = 2 pages. -/
theorem listTasks_pagination_correct_witness :
    (⟨1, 2, 3⟩ : Pagination).currentPage =
        (⟨none, none, some 2, none, none⟩ : ListQuery).page.getD 1 ∧
    (⟨1, 2, 3⟩ : Pagination).totalPages =
      Nat.ceil (((⟨1, 2, 3⟩ : Pagination).totalItems : ℚ) /
        (((⟨none, none, some 2, none, none⟩ : ListQuery).limit.getD 10 : Nat) : ℚ)) :=
  listTasks_pagination_correct dbThree 0 ⟨none, none, some 2, none, none⟩ [taskA, taskB]
    ⟨1, 2, 3⟩ (by decide) (by decide)

/-- C6: a create request whose body lacks `title` is rejected by the Joi
middleware with 400 and the exact message `Title is required`, and the
store is unchanged (the handler never runs). -/
theorem createTask_missing_title (db : List Task) (caller : UserId) (b : Body)
    (newId : String) (now : Nat) (h : b.title = none) :
    createTask db caller b newId now = (.err 400 "Title is required", db) := by
  unfold createTask validateTask titleError
  rw [h]

/-- C6 witness: a concrete title-less body is answered 400 and creates
nothing. -/
theorem createTask_missing_title_witness :
    createTask [] 7 ⟨none, some "d", none, []⟩ tidA 5 = (.err 400 "Title is required", []) :=
  createTask_missing_title [] 7 ⟨none, some "d", none, []⟩ tidA 5 rfl

/-- If the Joi middleware passes a body, its `status` key was absent or a
valid enum member. -/
theorem validate_none_status (b : Body) (h : validateTask b = none) :
    statusError b = none := by
  unfold validateTask at h
  cases h1 : titleError b with
  | some e =>
    simp only [validateTask, h1] at h
    exact Option.noConfusion h
  | none =>
    cases h2 : descriptionError b with
    | some e =>
      simp only [validateTask, h1, h2] at h
      exact Option.noConfusion h
    | none =>
      cases h3 : statusError b with
      | some e =>
        simp only [validateTask, h1, h2, h3] at h
        exact Option.noConfusion h
      | none => rfl

/-- C7: an update whose body carries a status outside
{Pending, In Progress, Completed} is rejected with 400 by the Joi
middleware and the store is unchanged. -/
theorem updateTask_invalid_status (db : List Task) (caller : UserId)
    (id : String) (b : Body) (s : String)
    (hs : b.status = some s) (hbad : statusValues.contains s = false) :
    (updateTask db caller id b).1.statusCode = 400 ∧
    (updateTask db caller id b).2 = db := by
  have hv : validateTask b ≠ none := by
    intro hnone
    have hst := validate_none_status b hnone
    unfold statusError at hst
    simp only [hs] at hst
    by_cases he : s = ""
    · rw [if_pos he] at hst
      exact Option.noConfusion hst
    · rw [if_neg he, hbad] at hst
      simp at hst
  cases hv2 : validateTask b with
  | none => exact absurd hv2 hv
  | some e =>
    constructor <;> simp [updateTask, hv2, Resp.statusCode]

/-- C7 witness: updating a stored task with status `Done` is answered 400
and the store keeps the task as it was. -/
theorem updateTask_invalid_status_witness :
    (updateTask [taskA] 1 tidA ⟨some "Task", none, some "Done", []⟩).1.statusCode = 400 ∧
    (updateTask [taskA] 1 tidA ⟨some "Task", none, some "Done", []⟩).2 = [taskA] :=
  updateTask_invalid_status [taskA] 1 tidA ⟨some "Task", none, some "Done", []⟩ "Done"
    rfl (by decide)

/-- C8: uploading with an attached file to an id whose task exists (and
satisfies the schema once the image is written) answers 200 and sets the
task's image to `/uploads/` followed by the stored filename; uploading with
no attached file answers 400 and changes nothing. -/
theorem uploadImage_sets_image (db : List Task) (caller : UserId) (id : String)
    (fname : String) (t : Task)
    (hid : isValidObjectId id = true)
    (hfind : db.find? (fun x => x.tid == id) = some t)
    (hsv : schemaViolation { t with image := some ("/uploads/" ++ fname) } = none) :
    (∃ t2 db2,
      uploadImage db caller id (some fname) =
        (.okUpload "Image uploaded successfully" t2, db2) ∧
      t2.image = some ("/uploads/" ++ fname)) ∧
    uploadImage db caller id none = (.err 400 "No file uploaded", db) := by
  refine ⟨⟨{ t with image := some ("/uploads/" ++ fname) },
    db.map (fun x => if x.tid == id then { t with image := some ("/uploads/" ++ fname) } else x),
    ?_, rfl⟩, rfl⟩
  simp [uploadImage, hid, hfind, hsv]

/-- C8 witness: a concrete upload to the stored task succeeds and records
`/uploads/img.png`; the file-less request is answered 400. -/
theorem uploadImage_sets_image_witness :
    (∃ t2 db2,
      uploadImage [taskA] 5 tidA (some "img.png") =
        (.okUpload "Image uploaded successfully" t2, db2) ∧
      t2.image = some ("/uploads/" ++ "img.png")) ∧
    uploadImage [taskA] 5 tidA none = (.err 400 "No file uploaded", [taskA]) :=
  uploadImage_sets_image [taskA] 5 tidA "img.png" taskA (by decide) (by decide) (by decide)

/-- C9: a successful upload touches only the image field — every task in
the store afterwards still has the title, description, status and owning
user it had before (ids are unique, as Mongo guarantees for `_id`). -/
theorem uploadImage_frame (db : List Task) (caller : UserId) (id : String)
    (fname : String) (r : Resp) (db2 : List Task)
    (hnodup : (db.map (fun x => x.tid)).Nodup)
    (h : uploadImage db caller id (some fname) = (r, db2))
    (hok : r.statusCode = 200) :
    ∀ x ∈ db, ∃ x2 ∈ db2, x2.tid = x.tid ∧ x2.title = x.title ∧
      x2.description = x.description ∧ x2.status = x.status ∧ x2.user = x.user := by
  simp only [uploadImage] at h
  split at h
  case isFalse =>
    injection h with h1 h2
    subst h1
    exact absurd hok (by simp [Resp.statusCode])
  case isTrue hid =>
    split at h
    case h_1 =>
      injection h with h1 h2
      subst h1
      exact absurd hok (by simp [Resp.statusCode])
    case h_2 t heq =>
      split at h
      case h_1 =>
        injection h with h1 h2
        subst h1
        exact absurd hok (by simp [Resp.statusCode])
      case h_2 =>
        injection h with h1 h2
        subst h2
        intro x hx
        by_cases hxid : (x.tid == id) = true
        · have htmem : t ∈ db := List.mem_of_find?_eq_some heq
          have httid := List.find?_some heq
          have hxt : x = t := by
            apply List.inj_on_of_nodup_map hnodup hx htmem
            simp only [beq_iff_eq] at hxid httid
            rw [hxid, httid]
          subst hxt
          refine ⟨{ x with image := some ("/uploads/" ++ fname) }, ?_, rfl, rfl, rfl, rfl, rfl⟩
          refine List.mem_map.mpr ⟨x, hx, ?_⟩
          simp [hxid]
        · refine ⟨x, ?_, rfl, rfl, rfl, rfl, rfl⟩
          refine List.mem_map.mpr ⟨x, hx, ?_⟩
          simp [hxid]

/-- The stored task after the witness upload: only the image changed. -/
def taskAUp : Task := { taskA with image := some "/uploads/img.png" }

/-- C9 witness: the concrete upload leaves title, description, status and
owner of the stored task untouched. -/
theorem uploadImage_frame_witness :
    ∃ x2 ∈ [taskAUp], x2.tid = taskA.tid ∧ x2.title = taskA.title ∧
      x2.description = taskA.description ∧ x2.status = taskA.status ∧
      x2.user = taskA.user :=
  uploadImage_frame [taskA] 5 tidA "img.png"
    (.okUpload "Image uploaded successfully" taskAUp) [taskAUp]
    (by decide) (by decide) rfl taskA (by decide)

/-- C10: every successfully created task has status `Pending`: the create
handler reads only `title` and `description` from the body, so even a body
carrying a valid status value is created with the schema default (and the
new task is appended to the store). -/
theorem createTask_status_pending (db : List Task) (caller : UserId)
    (b : Body) (newId : String) (now : Nat) (t : Task) (db2 : List Task)
    (h : createTask db caller b newId now = (.created t, db2)) :
    t.status = "Pending" ∧ db2 = db ++ [t] := by
  simp only [createTask] at h
  split at h
  · injection h with h1 h2
    exact Resp.noConfusion h1
  · split at h
    · injection h with h1 h2
      exact Resp.noConfusion h1
    · injection h with h1 h2
      injection h1 with h1
      subst h1
      exact ⟨rfl, h2.symm⟩

/-- C10 witness: creating from a body that supplies status `Completed`
still yields a `Pending` task. -/
theorem createTask_status_pending_witness :
    taskNew.status = "Pending" ∧ [taskNew] = [] ++ [taskNew] :=
  createTask_status_pending [] 3 bodyWithStatus tidB 9 taskNew [taskNew] (by decide)

end TaskApi
